import Mathlib

set_option linter.unusedVariables false

/-!
Shallow embedding of `internal/server/validation_service.go` from
benjamin-rood/protogo-values-validation-demo.

Modelling conventions:
* Go machine integers (`int32`, `int64`) are modelled as `Int`; nothing the
  verified properties touch can overflow (all counters stay tiny).
* `float64` quantities (durations in nanoseconds, throughput, ratios) are
  modelled as `ℚ`; the code never needs NaN/Inf-specific behaviour in the
  verified properties, and the one float division is guarded by positivity.
* A Go runtime panic (out-of-range string indexing, nil-pointer field
  selection) is modelled by `Option`/an explicit `panicked` outcome.
* `reflect.TypeOf(...).String()` on a struct field is a compile-time constant
  of the generated code (package `gen/.../v1`, produced by the plugin and not
  part of the hand-written sources), so it is abstracted as a `ReflectEnv`
  record of the six field-type strings.
* `context.Context` is reduced to the single observable the spec mentions:
  whether the caller-supplied deadline is already exceeded.
* Wall-clock measurements and `proto.Marshal` outcomes are external
  non-determinism, supplied by oracles.
-/

/-! ## Protobuf data model (gen/api/validation/v1) -/

/-- `DataPoint` proto message. -/
structure DataPoint where
  id : String
  value : ℚ
  timestamp : Int
  tags : List String
deriving DecidableEq, Repr, Inhabited

/-- `MetricPoint` proto message. -/
structure MetricPoint where
  name : String
  measurement : ℚ
  labels : List (String × String)
deriving DecidableEq, Repr, Inhabited

/-- `ValidationTestMessage` proto message: the streaming payload.
`pointer_slice_data` elements are Go pointers, hence possibly nil. -/
structure ValidationTestMessage where
  valueSliceData : List DataPoint
  pointerSliceData : List (Option DataPoint)
  metrics : List MetricPoint
deriving DecidableEq, Repr, Inhabited

/-- `ValidationResult` proto message. -/
structure ValidationResult where
  scenario : String
  passed : Bool
  errorMessage : String
  expectedType : String
  actualType : String
deriving DecidableEq, Repr, Inhabited

/-- `ValidateTypesRequest` proto message. -/
structure ValidateTypesRequest where
  testScenarios : List String
  deepValidation : Bool
deriving DecidableEq, Repr, Inhabited

/-- `ValidateTypesResponse` proto message. -/
structure ValidateTypesResponse where
  success : Bool
  results : List ValidationResult
  valueSliceCount : Int
  pointerSliceCount : Int
deriving DecidableEq, Repr, Inhabited

/-- `BenchmarkRequest` proto message. -/
structure BenchmarkRequest where
  iterations : Int
  dataSize : Int
deriving DecidableEq, Repr, Inhabited

/-- `BenchmarkResult` proto message. -/
structure BenchmarkResult where
  name : String
  durationNs : ℚ
  allocations : Int
  bytesAllocated : Int
  operationsPerSecond : ℚ
deriving DecidableEq, Repr, Inhabited

/-- `BenchmarkSummary` proto message. -/
structure BenchmarkSummary where
  valueSliceAvgDuration : ℚ
  pointerSliceAvgDuration : ℚ
  performanceImprovementRatio : ℚ
  memorySavingsBytes : Int
deriving DecidableEq, Repr, Inhabited

/-- `BenchmarkResponse` proto message. -/
structure BenchmarkResponse where
  success : Bool
  results : List BenchmarkResult
  summary : BenchmarkSummary
deriving DecidableEq, Repr, Inhabited

/-- `StreamRequest` proto message; `test_data` is a nilable message pointer. -/
structure StreamRequest where
  requestId : String
  sequenceNumber : Int
  testData : Option ValidationTestMessage
deriving DecidableEq, Repr, Inhabited

/-- `ProcessingStats` proto message. -/
structure ProcessingStats where
  processingTimeNs : Int
  itemsProcessed : Int
  throughput : ℚ
deriving DecidableEq, Repr, Inhabited

/-- `StreamResponse` proto message. -/
structure StreamResponse where
  requestId : String
  success : Bool
  message : String
  sequenceNumber : Int
  stats : ProcessingStats
deriving DecidableEq, Repr, Inhabited

/-! ## Environment abstractions -/

/-- gRPC status codes used by the service. -/
inductive GrpcCode where
  | invalidArgument
deriving DecidableEq, Repr

/-- A `status.Errorf` error value. -/
structure GrpcError where
  code : GrpcCode
  message : String
deriving DecidableEq, Repr

/-- Caller-supplied `context.Context`, reduced to the single observable the
spec's deadline discussion needs: whether the deadline is already exceeded. -/
structure GoContext where
  deadlineExceeded : Bool
deriving DecidableEq, Repr, Inhabited

/-- The six strings `reflect.TypeOf(field).String()` returns for the fields of
the two generated test messages. These are compile-time constants of the
generated package (not part of the hand-written sources), so the embedding is
parameterized over them. -/
structure ReflectEnv where
  vtmValueSliceData : String
  vtmPointerSliceData : String
  vtmMetrics : String
  ptmValueSliceData : String
  ptmPointerSliceData : String
  ptmResults : String
deriving DecidableEq, Repr

/-- The reflection environment of a build in which the plugin worked as
documented in the repository README (all six contracts hold). -/
def goodEnv : ReflectEnv :=
  { vtmValueSliceData := "[]v1.DataPoint"
    vtmPointerSliceData := "[]*v1.DataPoint"
    vtmMetrics := "[]v1.MetricPoint"
    ptmValueSliceData := "[]v1.DataPoint"
    ptmPointerSliceData := "[]*v1.Metadata"
    ptmResults := "[]v1.ProcessingResult" }

/-! ## Go string primitives

Go's `s[:n]` and `s[i]` panic when out of range; panics are `none`. -/

/-- Go slicing `s[:n]`: panics (`none`) when `n` exceeds the length. -/
def goTake (s : String) (n : Nat) : Option String :=
  if s.data.length < n then none else some ⟨s.data.take n⟩

/-! ## Utility functions (validation_service.go, bottom) -/

/-- `getErrorMessage` from validation_service.go. -/
def getErrorMessage (actual expected : String) : String :=
  if actual ≠ expected then "Expected " ++ expected ++ ", got " ++ actual
  else ""

/-- `containsValueSlice` from validation_service.go:
`typeStr[:2] == "[]" && typeStr[2] != '*'` with Go's left-to-right,
short-circuit evaluation; `none` models a panic. -/
def containsValueSlice (typeStr : String) : Option Bool :=
  match goTake typeStr 2 with
  | none => none
  | some p =>
    if p = "[]" then
      match typeStr.data.get? 2 with
      | none => none
      | some c => some (decide (c ≠ Char.ofNat 42))
    else some false

/-- `containsPointerSlice` from validation_service.go: `typeStr[:3] == "[]*"`;
`none` models a panic. -/
def containsPointerSlice (typeStr : String) : Option Bool :=
  match goTake typeStr 3 with
  | none => none
  | some p => some (decide (p = "[]*"))

/-! ## ContractValidator (ValidateTypes and helpers) -/

/-- `validateValidationTestMessageTypes` from validation_service.go. -/
def validateValidationTestMessageTypes (env : ReflectEnv) : List ValidationResult :=
  [ { scenario := "ValidationTestMessage.ValueSliceData"
      passed := env.vtmValueSliceData == "[]v1.DataPoint"
      errorMessage := getErrorMessage env.vtmValueSliceData "[]v1.DataPoint"
      expectedType := "[]v1.DataPoint"
      actualType := env.vtmValueSliceData },
    { scenario := "ValidationTestMessage.PointerSliceData"
      passed := env.vtmPointerSliceData == "[]*v1.DataPoint"
      errorMessage := getErrorMessage env.vtmPointerSliceData "[]*v1.DataPoint"
      expectedType := "[]*v1.DataPoint"
      actualType := env.vtmPointerSliceData },
    { scenario := "ValidationTestMessage.Metrics"
      passed := env.vtmMetrics == "[]v1.MetricPoint"
      errorMessage := getErrorMessage env.vtmMetrics "[]v1.MetricPoint"
      expectedType := "[]v1.MetricPoint"
      actualType := env.vtmMetrics } ]

/-- `validatePerformanceTestMessageTypes` from validation_service.go. -/
def validatePerformanceTestMessageTypes (env : ReflectEnv) : List ValidationResult :=
  [ { scenario := "PerformanceTestMessage.ValueSliceData"
      passed := env.ptmValueSliceData == "[]v1.DataPoint"
      errorMessage := getErrorMessage env.ptmValueSliceData "[]v1.DataPoint"
      expectedType := "[]v1.DataPoint"
      actualType := env.ptmValueSliceData },
    { scenario := "PerformanceTestMessage.PointerSliceData"
      passed := env.ptmPointerSliceData == "[]*v1.Metadata"
      errorMessage := getErrorMessage env.ptmPointerSliceData "[]*v1.Metadata"
      expectedType := "[]*v1.Metadata"
      actualType := env.ptmPointerSliceData },
    { scenario := "PerformanceTestMessage.Results"
      passed := env.ptmResults == "[]v1.ProcessingResult"
      errorMessage := getErrorMessage env.ptmResults "[]v1.ProcessingResult"
      expectedType := "[]v1.ProcessingResult"
      actualType := env.ptmResults } ]

/-- One step of the counting loop in `ValidateTypes` (lines 38-45):
`if result.Passed && containsValueSlice(result.ActualType) { valueSliceCount++ }
else if result.Passed && containsPointerSlice(result.ActualType) { pointerSliceCount++ }`
with Go short-circuiting; `none` models a panic inside `containsValueSlice`
or `containsPointerSlice`. -/
def countStep (acc : Int × Int) (result : ValidationResult) : Option (Int × Int) :=
  if result.passed then
    match containsValueSlice result.actualType with
    | none => none
    | some true => some (acc.1 + 1, acc.2)
    | some false =>
      match containsPointerSlice result.actualType with
      | none => none
      | some true => some (acc.1, acc.2 + 1)
      | some false => some acc
  else some acc

/-- The whole counting loop of `ValidateTypes` over the result list. -/
def countSlices (results : List ValidationResult) : Option (Int × Int) :=
  results.foldlM countStep (0, 0)

/-- `ValidateTypes` from validation_service.go. The `ctx` and `req` parameters
are in scope in the Go function but never read. `none` models a panic of the
counting loop. -/
def ValidateTypes (env : ReflectEnv) (ctx : GoContext) (req : ValidateTypesRequest) :
    Option ValidateTypesResponse :=
  let results := validateValidationTestMessageTypes env ++ validatePerformanceTestMessageTypes env
  match countSlices results with
  | none => none
  | some (v, p) =>
    some { success := results.all (fun r => r.passed)
           results := results
           valueSliceCount := v
           pointerSliceCount := p }

/-! ## BenchmarkEngine (RunBenchmarks and helpers)

Wall-clock durations measured by `time.Since` and the outcomes of
`proto.Marshal` are external non-determinism, supplied by a `BenchOracle`. -/

/-- Externally-measured quantities of one `RunBenchmarks` call: the four
wall-clock durations (in nanoseconds, as returned by
`duration.Nanoseconds()`) and, per serialization iteration, the encoded
length (`some len`) or an encode failure (`none`). -/
structure BenchOracle where
  valueIterNs : Int
  pointerIterNs : Int
  memAllocNs : Int
  serializationNs : Int
  marshal : Nat → Option Nat

/-- Go `duration.Seconds()` for a nanosecond count. -/
def nsToSeconds (ns : Int) : ℚ := (ns : ℚ) / 1000000000

/-- `benchmarkValueSliceIteration` from validation_service.go: the synthetic
data and the summing loop have no observable output besides the measured
duration; the reported fields are embedded exactly. -/
def benchmarkValueSliceIteration (o : BenchOracle) (iterations dataSize : Int) :
    BenchmarkResult :=
  { name := "ValueSlice_Iteration"
    durationNs := (o.valueIterNs : ℚ)
    allocations := 0
    bytesAllocated := 0
    operationsPerSecond := (iterations : ℚ) / nsToSeconds o.valueIterNs }

/-- `benchmarkPointerSliceIteration` from validation_service.go. -/
def benchmarkPointerSliceIteration (o : BenchOracle) (iterations dataSize : Int) :
    BenchmarkResult :=
  { name := "PointerSlice_Iteration"
    durationNs := (o.pointerIterNs : ℚ)
    allocations := 0
    bytesAllocated := 0
    operationsPerSecond := (iterations : ℚ) / nsToSeconds o.pointerIterNs }

/-- `benchmarkMemoryAllocation` from validation_service.go. -/
def benchmarkMemoryAllocation (o : BenchOracle) (iterations dataSize : Int) :
    BenchmarkResult :=
  { name := "Memory_Allocation"
    durationNs := (o.memAllocNs : ℚ)
    allocations := iterations
    bytesAllocated := iterations * dataSize * 64
    operationsPerSecond := (iterations : ℚ) / nsToSeconds o.memAllocNs }

/-- The accumulation of `totalBytes` in `benchmarkSerialization`: a failed
encode (`marshal i = none`) contributes zero bytes and does not abort. -/
def serializationTotalBytes (o : BenchOracle) (iterations : Nat) : Int :=
  (List.range iterations).foldl
    (fun acc i => match o.marshal i with
      | some n => acc + (n : Int)
      | none => acc) 0

/-- `benchmarkSerialization` from validation_service.go. -/
def benchmarkSerialization (o : BenchOracle) (iterations dataSize : Int) :
    BenchmarkResult :=
  { name := "Serialization"
    durationNs := (o.serializationNs : ℚ)
    allocations := iterations
    bytesAllocated := serializationTotalBytes o iterations.toNat
    operationsPerSecond := (iterations : ℚ) / nsToSeconds o.serializationNs }

/-- One arm of the `switch result.Name` loop in `calculateBenchmarkSummary`;
the accumulator is (valueSliceDuration, pointerSliceDuration, memoryUsage). -/
def summaryStep (acc : ℚ × ℚ × Int) (result : BenchmarkResult) : ℚ × ℚ × Int :=
  if result.name = "ValueSlice_Iteration" then (result.durationNs, acc.2.1, acc.2.2)
  else if result.name = "PointerSlice_Iteration" then (acc.1, result.durationNs, acc.2.2)
  else if result.name = "Memory_Allocation" ∨ result.name = "Serialization" then
    (acc.1, acc.2.1, acc.2.2 + result.bytesAllocated)
  else acc

/-- `calculateBenchmarkSummary` from validation_service.go. -/
def calculateBenchmarkSummary (results : List BenchmarkResult) : BenchmarkSummary :=
  let acc := results.foldl summaryStep (0, 0, 0)
  { valueSliceAvgDuration := acc.1
    pointerSliceAvgDuration := acc.2.1
    performanceImprovementRatio := if 0 < acc.2.1 ∧ 0 < acc.1 then acc.2.1 / acc.1 else 1
    memorySavingsBytes := acc.2.2 }

/-- `RunBenchmarks` from validation_service.go. The `ctx` parameter is in
scope in the Go function but never read. -/
def RunBenchmarks (o : BenchOracle) (ctx : GoContext) (req : BenchmarkRequest) :
    Except GrpcError BenchmarkResponse :=
  if req.iterations ≤ 0 then
    .error { code := .invalidArgument, message := "iterations must be > 0" }
  else if req.dataSize ≤ 0 then
    .error { code := .invalidArgument, message := "data_size must be > 0" }
  else
    let results := [benchmarkValueSliceIteration o req.iterations req.dataSize,
                    benchmarkPointerSliceIteration o req.iterations req.dataSize,
                    benchmarkMemoryAllocation o req.iterations req.dataSize,
                    benchmarkSerialization o req.iterations req.dataSize]
    .ok { success := true
          results := results
          summary := calculateBenchmarkSummary results }

/-! ## StreamingProcessor (StreamValidation) -/

/-- `validateTestMessage` from validation_service.go: nil payload returns
false; otherwise the two reflected field-type strings are compared (their
values are build constants from `ReflectEnv`, independent of the message
contents). -/
def validateTestMessage (env : ReflectEnv) (msg : Option ValidationTestMessage) : Bool :=
  match msg with
  | none => false
  | some _ =>
    env.vtmValueSliceData == "[]v1.DataPoint" &&
    env.vtmPointerSliceData == "[]*v1.DataPoint"

/-- Outcome of one `stream.Recv()` call: a message, a normal end of the input
stream (`io.EOF`), or a transport failure (any other error). -/
inductive RecvOutcome where
  | msg (r : StreamRequest)
  | eofEnd
  | transportFailure
deriving DecidableEq, Repr

/-- How the `StreamValidation` handler terminates, with the responses
successfully sent before termination:
`normal` = the Go function returned nil, `sendFailure` = it returned the
non-nil send error, `panicked` = a Go runtime panic escaped the handler. -/
inductive HandlerOutcome where
  | normal (sent : List StreamResponse)
  | sendFailure (sent : List StreamResponse)
  | panicked (sent : List StreamResponse)
deriving DecidableEq, Repr

/-- The response built for one non-nil payload in the `StreamValidation` loop
(lines 112-130); `tNs` is the measured wall-clock processing time. -/
def mkStreamResponse (env : ReflectEnv) (tNs : Int) (r : StreamRequest)
    (td : ValidationTestMessage) : StreamResponse :=
  let items : Int := td.valueSliceData.length + td.pointerSliceData.length
  { requestId := r.requestId
    success := validateTestMessage env (some td)
    message := "Processed request " ++ r.requestId
    sequenceNumber := r.sequenceNumber
    stats := { processingTimeNs := tNs
               itemsProcessed := items
               throughput := (items : ℚ) / nsToSeconds tNs } }

/-- The `for` loop of `StreamValidation`: processes recv outcomes in order.
Any recv error — `io.EOF` or a transport failure alike — takes the
`return nil` branch (lines 106-109). A nil `test_data` panics when the stats
are computed (`len(req.TestData.ValueSliceData)`, line 127), after
`validateTestMessage` has already returned false. `timeNs n` is the measured
processing time of the n-th request, `sendFails n` tells whether the n-th
`stream.Send` fails. -/
def streamLoop (env : ReflectEnv) (timeNs : Nat → Int) (sendFails : Nat → Bool) :
    List RecvOutcome → Nat → List StreamResponse → HandlerOutcome
  | [], _, acc => .normal acc.reverse
  | .eofEnd :: _, _, acc => .normal acc.reverse
  | .transportFailure :: _, _, acc => .normal acc.reverse
  | .msg r :: rest, n, acc =>
    match r.testData with
    | none => .panicked acc.reverse
    | some td =>
      let resp := mkStreamResponse env (timeNs n) r td
      if sendFails n then .sendFailure acc.reverse
      else streamLoop env timeNs sendFails rest (n + 1) (resp :: acc)

/-- `StreamValidation` from validation_service.go, as a function of the whole
sequence of recv outcomes of the connection. -/
def StreamValidation (env : ReflectEnv) (timeNs : Nat → Int) (sendFails : Nat → Bool)
    (events : List RecvOutcome) : HandlerOutcome :=
  streamLoop env timeNs sendFails events 0 []

/-! ## Spec-side helpers and concrete fixtures -/

/-- The responses a failure-free connection is expected to produce for a list
of requests, the n-th processed at measured time `timeNs n` (spec-side
description, compared against `StreamValidation`; the `default` branch is
unreachable for non-nil payloads). -/
def expectedResponses (env : ReflectEnv) (timeNs : Nat → Int) :
    Nat → List StreamRequest → List StreamResponse
  | _, [] => []
  | n, r :: rest =>
    (match r.testData with
     | some td => mkStreamResponse env (timeNs n) r td
     | none => default) :: expectedResponses env timeNs (n + 1) rest

/-- A concrete benchmark oracle for witnesses and counterexamples. -/
def oracle1 : BenchOracle :=
  { valueIterNs := 5
    pointerIterNs := 10
    memAllocNs := 3
    serializationNs := 4
    marshal := fun _ => some 8 }

/-- A reflection environment in which `ValidationTestMessage.ValueSliceData`
came out as a value slice of the wrong element type: the contract fails but
the actual representation kind is still value-collection. -/
def c4Env : ReflectEnv :=
  { goodEnv with vtmValueSliceData := "[]v1.Other" }

/-- A concrete data point. -/
def dp1 : DataPoint := { id := "d1", value := 1, timestamp := 1, tags := [] }

/-- A concrete metric point. -/
def mp1 : MetricPoint := { name := "m", measurement := 1, labels := [] }

/-- A payload with 1 value-collection element, 1 reference-collection element
and 1 metrics element. -/
def c5Payload : ValidationTestMessage :=
  { valueSliceData := [dp1]
    pointerSliceData := [some dp1]
    metrics := [mp1] }

/-- A stream request carrying `c5Payload`. -/
def c5Req : StreamRequest :=
  { requestId := "m1", sequenceNumber := 7, testData := some c5Payload }

/-- A payload with 1 value-collection element and 1 reference-collection
element and no metrics (the spec's `items_processed=2` example). -/
def twoItemPayload : ValidationTestMessage :=
  { valueSliceData := [dp1]
    pointerSliceData := [some dp1]
    metrics := [] }

/-- A stream request with a nil payload. -/
def nilPayloadReq : StreamRequest :=
  { requestId := "r1", sequenceNumber := 1, testData := none }

/-- A stream request with a non-nil payload, used for send-failure witnesses. -/
def c3Req : StreamRequest :=
  { requestId := "a", sequenceNumber := 0, testData := some twoItemPayload }

/-- A bare stream request with non-nil (empty) payload carrying a given
request id and sequence number. -/
def mkReq (rid : String) (seq : Int) : StreamRequest :=
  { requestId := rid, sequenceNumber := seq
    testData := some { valueSliceData := [], pointerSliceData := [], metrics := [] } }

/-- The spec's five-request streaming scenario. -/
def fiveReqs : List StreamRequest :=
  [mkReq "req_0" 0, mkReq "req_1" 1, mkReq "req_2" 2, mkReq "req_3" 3, mkReq "req_4" 4]

/-- The `ValidateTypes` response of the good build (witness fixture). -/
def goodResp : ValidateTypesResponse :=
  (ValidateTypes goodEnv { deadlineExceeded := false }
    { testScenarios := [], deepValidation := false }).getD default

/-- Benchmark-result list whose value-iteration duration is zero. -/
def wlistZero : List BenchmarkResult :=
  [ { name := "ValueSlice_Iteration", durationNs := 0, allocations := 0,
      bytesAllocated := 0, operationsPerSecond := 0 },
    { name := "PointerSlice_Iteration", durationNs := 5, allocations := 0,
      bytesAllocated := 0, operationsPerSecond := 0 } ]

/-- Benchmark-result list with both iteration durations positive. -/
def wlistPos : List BenchmarkResult :=
  [ { name := "ValueSlice_Iteration", durationNs := 100, allocations := 0,
      bytesAllocated := 0, operationsPerSecond := 0 },
    { name := "PointerSlice_Iteration", durationNs := 200, allocations := 0,
      bytesAllocated := 0, operationsPerSecond := 0 } ]

/-- A benchmark result whose name matches no arm of the summary switch. -/
def unknownResult : BenchmarkResult :=
  { name := "Unknown_Benchmark", durationNs := 7, allocations := 1,
    bytesAllocated := 99, operationsPerSecond := 0 }

/-- A passed validation result whose actual type string is at least 3
characters long. -/
def passedLongResult : ValidationResult :=
  { scenario := "s"
    passed := true
    errorMessage := ""
    expectedType := "[]v1.DataPoint"
    actualType := "[]v1.DataPoint" }

/-- The results the counting loop of `ValidateTypes` actually increments
`valueSliceCount` for: passed, and `containsValueSlice` returned true. -/
def countedAsValue (r : ValidationResult) : Bool :=
  r.passed && decide (containsValueSlice r.actualType = some true)

/-- The results the counting loop of `ValidateTypes` actually increments
`pointerSliceCount` for: passed, `containsValueSlice` returned false, and
`containsPointerSlice` returned true. -/
def countedAsPointer (r : ValidationResult) : Bool :=
  r.passed && decide (containsValueSlice r.actualType = some false)
    && decide (containsPointerSlice r.actualType = some true)

/-- The error code of a `RunBenchmarks` outcome, `none` when the call
succeeded. -/
def exceptErrorCode : Except GrpcError BenchmarkResponse → Option GrpcCode
  | .error e => some e.code
  | .ok _ => none

/-- The benchmark names of a successful `RunBenchmarks` outcome, `none` when
the call failed. -/
def exceptResultNames : Except GrpcError BenchmarkResponse → Option (List String)
  | .error _ => none
  | .ok resp => some (resp.results.map BenchmarkResult.name)

/-! ## Helper lemmas

Evaluation equations for the Go string helpers on explicitly shaped data. -/

lemma containsValueSlice_mk_nil : containsValueSlice ⟨[]⟩ = none := rfl

lemma containsValueSlice_mk_one (a : Char) : containsValueSlice ⟨[a]⟩ = none := rfl

lemma containsValueSlice_mk_two (a b : Char) :
    containsValueSlice ⟨[a, b]⟩ =
      if (⟨[a, b]⟩ : String) = "[]" then none else some false := rfl

lemma containsValueSlice_mk_long (a b c : Char) (cs : List Char) :
    containsValueSlice ⟨a :: b :: c :: cs⟩ =
      if (⟨[a, b]⟩ : String) = "[]" then some (decide (c ≠ Char.ofNat 42))
      else some false := rfl

lemma containsPointerSlice_mk_nil : containsPointerSlice ⟨[]⟩ = none := rfl

lemma containsPointerSlice_mk_one (a : Char) : containsPointerSlice ⟨[a]⟩ = none := rfl

lemma containsPointerSlice_mk_two (a b : Char) : containsPointerSlice ⟨[a, b]⟩ = none := rfl

lemma containsPointerSlice_mk_long (a b c : Char) (cs : List Char) :
    containsPointerSlice ⟨a :: b :: c :: cs⟩ =
      some (decide ((⟨[a, b, c]⟩ : String) = "[]*")) := rfl

lemma containsPointerSlice_eq_none_iff (t : String) :
    containsPointerSlice t = none ↔ t.data.length < 3 := by
  obtain ⟨l⟩ := t
  match l with
  | [] =>
    constructor
    · intro _; norm_num
    · intro _; exact containsPointerSlice_mk_nil
  | [a] =>
    constructor
    · intro _; norm_num
    · intro _; exact containsPointerSlice_mk_one a
  | [a, b] =>
    constructor
    · intro _; norm_num
    · intro _; exact containsPointerSlice_mk_two a b
  | a :: b :: c :: cs =>
    rw [containsPointerSlice_mk_long]
    simp only [List.length_cons]
    constructor
    · intro h; cases h
    · intro h; omega

lemma containsValueSlice_eq_none_iff (t : String) :
    containsValueSlice t = none ↔ t.data.length < 2 ∨ t = "[]" := by
  obtain ⟨l⟩ := t
  match l with
  | [] =>
    constructor
    · intro _; exact Or.inl (by norm_num)
    · intro _; rfl
  | [a] =>
    constructor
    · intro _; exact Or.inl (by norm_num)
    · intro _; rfl
  | [a, b] =>
    rw [containsValueSlice_mk_two]
    by_cases h : (⟨[a, b]⟩ : String) = "[]"
    · simp [h]
    · simp [h]
  | a :: b :: c :: cs =>
    have hne : (⟨a :: b :: c :: cs⟩ : String) ≠ "[]" := by
      intro h
      have := congrArg (fun s => s.data.length) h
      simp at this
    rw [containsValueSlice_mk_long]
    constructor
    · intro h
      split at h
      · cases hd : decide (c ≠ Char.ofNat 42) <;> rw [hd] at h <;> cases h
      · cases h
    · intro h
      rcases h with h | h
      · simp only [List.length_cons] at h; omega
      · exact absurd h hne

lemma length_ge_three_of_containsValueSlice_some_true (t : String)
    (h : containsValueSlice t = some true) : 3 ≤ t.data.length := by
  obtain ⟨l⟩ := t
  match l with
  | [] => rw [containsValueSlice_mk_nil] at h; cases h
  | [a] => rw [containsValueSlice_mk_one a] at h; cases h
  | [a, b] =>
    rw [containsValueSlice_mk_two] at h
    split at h <;> simp at h
  | a :: b :: c :: cs => simp only [List.length_cons]; omega

lemma countStep_eq_none_iff (acc : Int × Int) (r : ValidationResult) :
    countStep acc r = none ↔ r.passed = true ∧ r.actualType.data.length < 3 := by
  cases hp : r.passed with
  | false => simp [countStep, hp]
  | true =>
    simp only [countStep, hp, if_true, true_and]
    cases hcv : containsValueSlice r.actualType with
    | none =>
      have hl := (containsValueSlice_eq_none_iff r.actualType).mp hcv
      have hlen : r.actualType.data.length < 3 := by
        rcases hl with h | h
        · omega
        · rw [h]; decide
      simp only [hcv, true_iff]
      exact hlen
    | some bv =>
      cases bv with
      | true =>
        have h3 := length_ge_three_of_containsValueSlice_some_true _ hcv
        simp only [hcv]
        constructor
        · intro h; cases h
        · intro h; omega
      | false =>
        cases hcp : containsPointerSlice r.actualType with
        | none =>
          have hlen := (containsPointerSlice_eq_none_iff r.actualType).mp hcp
          simp only [hcv, hcp, true_iff]
          exact hlen
        | some bp =>
          have hlen : ¬(r.actualType.data.length < 3) := by
            intro hlt
            rw [← containsPointerSlice_eq_none_iff] at hlt
            rw [hcp] at hlt
            cases hlt
          cases bp <;> simp only [hcv, hcp] <;> constructor <;> intro h
          · cases h
          · exact absurd h hlen
          · cases h
          · exact absurd h hlen

lemma foldlM_countStep_isSome (rs : List ValidationResult) :
    ∀ acc : Int × Int, (rs.foldlM countStep acc).isSome = true ↔
      ∀ r ∈ rs, r.passed = true → 3 ≤ r.actualType.data.length := by
  induction rs with
  | nil => intro acc; simp [List.foldlM]
  | cons r rest ih =>
    intro acc
    cases hc : countStep acc r with
    | none =>
      obtain ⟨hpass, hlen⟩ := (countStep_eq_none_iff acc r).mp hc
      have hL : ((r :: rest).foldlM countStep acc) = none := by
        simp [List.foldlM_cons, hc]
      rw [hL]
      simp only [Option.isSome_none, Bool.false_eq_true, false_iff]
      intro hall
      have := hall r (List.mem_cons_self r rest) hpass
      omega
    | some acc2 =>
      have hok : ¬(r.passed = true ∧ r.actualType.data.length < 3) := by
        rw [← countStep_eq_none_iff acc r, hc]; simp
      have hL : ((r :: rest).foldlM countStep acc) = rest.foldlM countStep acc2 := by
        simp [List.foldlM_cons, hc]
      rw [hL, ih acc2]
      constructor
      · rintro h r' hr' hp
        rcases List.mem_cons.mp hr' with rfl | hr'
        · by_contra hlt
          push_neg at hlt
          exact hok ⟨hp, by omega⟩
        · exact h r' hr' hp
      · intro h r' hr' hp
        exact h r' (List.mem_cons_of_mem _ hr') hp

lemma foldlM_countStep_spec (rs : List ValidationResult) :
    ∀ (a b v p : Int), rs.foldlM countStep (a, b) = some (v, p) →
      v = a + ((rs.filter countedAsValue).length : Int) ∧
      p = b + ((rs.filter countedAsPointer).length : Int) := by
  induction rs with
  | nil =>
    intro a b v p h
    simp [List.foldlM] at h
    obtain ⟨rfl, rfl⟩ := h
    simp
  | cons r rest ih =>
    intro a b v p h
    rw [List.foldlM_cons] at h
    cases hpass : r.passed with
    | false =>
      have hc : countStep (a, b) r = some (a, b) := by simp [countStep, hpass]
      rw [hc] at h
      simp only [Option.bind_eq_bind, Option.some_bind] at h
      have := ih a b v p h
      simp [List.filter_cons, countedAsValue, countedAsPointer, hpass, this]
    | true =>
      cases hcv : containsValueSlice r.actualType with
      | none =>
        have hc : countStep (a, b) r = none := by simp [countStep, hpass, hcv]
        rw [hc] at h
        cases h
      | some bv =>
        cases bv with
        | true =>
          have hc : countStep (a, b) r = some (a + 1, b) := by simp [countStep, hpass, hcv]
          rw [hc] at h
          simp only [Option.bind_eq_bind, Option.some_bind] at h
          obtain ⟨hv, hp2⟩ := ih (a + 1) b v p h
          constructor
          · rw [hv]
            simp [List.filter_cons, countedAsValue, hpass, hcv]
            ring
          · rw [hp2]
            simp [List.filter_cons, countedAsPointer, hpass, hcv]
        | false =>
          cases hcp : containsPointerSlice r.actualType with
          | none =>
            have hc : countStep (a, b) r = none := by simp [countStep, hpass, hcv, hcp]
            rw [hc] at h
            cases h
          | some bp =>
            cases bp with
            | true =>
              have hc : countStep (a, b) r = some (a, b + 1) := by
                simp [countStep, hpass, hcv, hcp]
              rw [hc] at h
              simp only [Option.bind_eq_bind, Option.some_bind] at h
              obtain ⟨hv, hp2⟩ := ih a (b + 1) v p h
              constructor
              · rw [hv]
                simp [List.filter_cons, countedAsValue, hpass, hcv]
              · rw [hp2]
                simp [List.filter_cons, countedAsPointer, hpass, hcv, hcp]
                ring
            | false =>
              have hc : countStep (a, b) r = some (a, b) := by
                simp [countStep, hpass, hcv, hcp]
              rw [hc] at h
              simp only [Option.bind_eq_bind, Option.some_bind] at h
              have := ih a b v p h
              simp [List.filter_cons, countedAsValue, countedAsPointer, hpass, hcv, hcp, this]

lemma streamLoop_all_ok (env : ReflectEnv) (timeNs : Nat → Int) (sendFails : Nat → Bool)
    (hsend : ∀ n, sendFails n = false) :
    ∀ (reqs : List StreamRequest), (∀ r ∈ reqs, r.testData ≠ none) →
      ∀ (n : Nat) (acc : List StreamResponse),
      streamLoop env timeNs sendFails (reqs.map RecvOutcome.msg ++ [RecvOutcome.eofEnd]) n acc =
        HandlerOutcome.normal (acc.reverse ++ expectedResponses env timeNs n reqs) := by
  intro reqs
  induction reqs with
  | nil => intro _ n acc; simp [streamLoop, expectedResponses]
  | cons r rest ih =>
    intro hnn n acc
    cases hr : r.testData with
    | none => exact absurd hr (hnn r (List.mem_cons_self r rest))
    | some td =>
      simp only [List.map_cons, List.cons_append, streamLoop, hr, hsend n, Bool.false_eq_true,
        if_false, List.append_eq]
      rw [ih (fun r' hr' => hnn r' (List.mem_cons_of_mem _ hr')) (n + 1)
        (mkStreamResponse env (timeNs n) r td :: acc)]
      simp [expectedResponses, hr]

lemma expectedResponses_length (env : ReflectEnv) (timeNs : Nat → Int) :
    ∀ (reqs : List StreamRequest) (n : Nat),
      (expectedResponses env timeNs n reqs).length = reqs.length := by
  intro reqs
  induction reqs with
  | nil => intro n; rfl
  | cons r rest ih => intro n; simp [expectedResponses, ih (n + 1)]

lemma expectedResponses_corr (env : ReflectEnv) (timeNs : Nat → Int) :
    ∀ (reqs : List StreamRequest), (∀ r ∈ reqs, r.testData ≠ none) → ∀ n,
      (expectedResponses env timeNs n reqs).map
          (fun resp => (resp.requestId, resp.sequenceNumber)) =
        reqs.map (fun r => (r.requestId, r.sequenceNumber)) := by
  intro reqs
  induction reqs with
  | nil => intro _ n; rfl
  | cons r rest ih =>
    intro hnn n
    cases hr : r.testData with
    | none => exact absurd hr (hnn r (List.mem_cons_self r rest))
    | some td =>
      simp [expectedResponses, hr, mkStreamResponse,
        ih (fun r' hr' => hnn r' (List.mem_cons_of_mem _ hr')) (n + 1)]

lemma expectedResponses_items (env : ReflectEnv) (timeNs : Nat → Int) :
    ∀ (reqs : List StreamRequest), (∀ r ∈ reqs, r.testData ≠ none) → ∀ n,
      (expectedResponses env timeNs n reqs).map (fun resp => resp.stats.itemsProcessed) =
        reqs.map (fun r =>
          (r.testData.map (fun td =>
            (td.valueSliceData.length : Int) + td.pointerSliceData.length)).getD 0) := by
  intro reqs
  induction reqs with
  | nil => intro _ n; rfl
  | cons r rest ih =>
    intro hnn n
    cases hr : r.testData with
    | none => exact absurd hr (hnn r (List.mem_cons_self r rest))
    | some td =>
      simp [expectedResponses, hr, mkStreamResponse,
        ih (fun r' hr' => hnn r' (List.mem_cons_of_mem _ hr')) (n + 1)]

lemma validateTypes_results_length (env : ReflectEnv) (ctx : GoContext)
    (req : ValidateTypesRequest) (resp : ValidateTypesResponse)
    (h : ValidateTypes env ctx req = some resp) : resp.results.length = 6 := by
  simp only [ValidateTypes] at h
  cases hc : countSlices (validateValidationTestMessageTypes env ++
      validatePerformanceTestMessageTypes env) with
  | none => rw [hc] at h; cases h
  | some vp =>
    obtain ⟨v, p⟩ := vp
    rw [hc] at h
    simp only [Option.some.injEq] at h
    subst h
    simp [validateValidationTestMessageTypes, validatePerformanceTestMessageTypes]

/-! ## Claim theorems -/

/-- Claim C1 (code bug): the spec says a nil streaming payload is a non-fatal
validation failure, reported in the response, never a crash — and the nil
check inside `validateTestMessage` shows that intent — but the stats
computation then dereferences the nil `req.TestData`
(`len(req.TestData.ValueSliceData)`, line 127), so the handler panics and no
response is emitted for the nil-payload request. -/
theorem C1_nil_payload_panics :
    StreamValidation goodEnv (fun _ => 1) (fun _ => false)
      [RecvOutcome.msg nilPayloadReq, RecvOutcome.eofEnd] =
      HandlerOutcome.panicked [] := rfl

/-- Claim C2 counterexample: with an already-exceeded caller deadline and
valid arguments, `RunBenchmarks` does not fail with a deadline-exceeded
condition; it runs to completion and returns all four benchmark results. -/
theorem C2_counterexample_deadline_ignored :
    (RunBenchmarks oracle1 { deadlineExceeded := true }
        { iterations := 2, dataSize := 3 }).toOption.map
        (fun resp => (resp.results.length, resp.success)) = some (4, true) := rfl

/-- Claim C2 amended: neither `ValidateTypes` nor `RunBenchmarks` ever
consults the caller-supplied context — no deadline is checked before the work
or between benchmark phases — so the outcome is identical whether or not the
deadline is already exceeded, and an exceeded deadline never produces a
deadline-exceeded failure from this code. -/
theorem C2_amended_context_never_consulted (o : BenchOracle) (c c' : GoContext)
    (req : BenchmarkRequest) (env : ReflectEnv) (vc vc' : GoContext)
    (vreq : ValidateTypesRequest) :
    RunBenchmarks o c req = RunBenchmarks o c' req ∧
    ValidateTypes env vc vreq = ValidateTypes env vc' vreq :=
  ⟨rfl, rfl⟩

/-- Claim C3 counterexample: a transport failure on receive is not propagated:
the handler hits the `if err != nil { return nil }` branch (lines 106-109) and
terminates exactly as for a clean end of stream, returning no error. -/
theorem C3_counterexample_recv_failure_swallowed :
    StreamValidation goodEnv (fun _ => 1) (fun _ => false) [RecvOutcome.transportFailure] =
      HandlerOutcome.normal [] := rfl

/-- Claim C3 amended: any receive error — transport failure or normal end of
stream alike — terminates the connection with a nil error (the code cannot
tell the two apart); only a send failure is propagated to the caller as a
non-nil error. -/
theorem C3_amended_only_send_failures_propagate (env : ReflectEnv) (timeNs : Nat → Int)
    (sendFails : Nat → Bool) (rest : List RecvOutcome) (r : StreamRequest)
    (td : ValidationTestMessage) (h1 : r.testData = some td) (h2 : sendFails 0 = true) :
    StreamValidation env timeNs sendFails (RecvOutcome.transportFailure :: rest) =
      HandlerOutcome.normal [] ∧
    StreamValidation env timeNs sendFails (RecvOutcome.eofEnd :: rest) =
      HandlerOutcome.normal [] ∧
    StreamValidation env timeNs sendFails (RecvOutcome.msg r :: rest) =
      HandlerOutcome.sendFailure [] := by
  refine ⟨rfl, rfl, ?_⟩
  simp [StreamValidation, streamLoop, h1, h2]

/-- Witness for the amended C3 theorem at concrete inputs. -/
theorem C3_amended_witness :
    StreamValidation goodEnv (fun _ => 1) (fun _ => true) [RecvOutcome.transportFailure] =
      HandlerOutcome.normal [] ∧
    StreamValidation goodEnv (fun _ => 1) (fun _ => true) [RecvOutcome.eofEnd] =
      HandlerOutcome.normal [] ∧
    StreamValidation goodEnv (fun _ => 1) (fun _ => true) [RecvOutcome.msg c3Req] =
      HandlerOutcome.sendFailure [] :=
  C3_amended_only_send_failures_propagate goodEnv (fun _ => 1) (fun _ => true) []
    c3Req twoItemPayload rfl rfl

/-- Claim C4 counterexample: in a build where
`ValidationTestMessage.ValueSliceData` resolves to the value slice
`[]v1.Other` (wrong element type, so that contract entry fails while the
actual representation kind is still value-collection), the response counts
only 3 value slices although 4 of the 6 results actually resolved to the
value-collection kind: the counting loop requires `result.Passed`, so a
failed result's representation kind is not counted. -/
theorem C4_counterexample_failed_results_not_counted :
    (ValidateTypes c4Env { deadlineExceeded := false }
        { testScenarios := [], deepValidation := false }).map
        (fun resp => (resp.valueSliceCount,
          ((resp.results.filter
            (fun r => decide (containsValueSlice r.actualType = some true))).length : Int))) =
      some (3, 4) := by decide

/-- Claim C4 amended: `ValidateTypes` produces one result per contract entry
(six in total), and the derived counts cover only results that passed:
`value_slice_count` (resp. `pointer_slice_count`) equals the number of passed
results whose actual type string the loop classifies as a value (resp.
pointer) slice; a failed result's representation kind is never counted. -/
theorem C4_amended_counts_cover_passed_results_only (env : ReflectEnv) (ctx : GoContext)
    (req : ValidateTypesRequest) (resp : ValidateTypesResponse)
    (h : ValidateTypes env ctx req = some resp) :
    resp.results.length = 6 ∧
    resp.valueSliceCount = ((resp.results.filter countedAsValue).length : Int) ∧
    resp.pointerSliceCount = ((resp.results.filter countedAsPointer).length : Int) := by
  refine ⟨validateTypes_results_length env ctx req resp h, ?_, ?_⟩ <;>
  · simp only [ValidateTypes] at h
    cases hc : countSlices (validateValidationTestMessageTypes env ++
        validatePerformanceTestMessageTypes env) with
    | none => rw [hc] at h; cases h
    | some vp =>
      obtain ⟨v, p⟩ := vp
      rw [hc] at h
      simp only [Option.some.injEq] at h
      subst h
      obtain ⟨hv, hp⟩ := foldlM_countStep_spec _ 0 0 v p hc
      simp only [hv, hp]
      simp

/-- Witness for the amended C4 theorem: the good build's response has six
results whose counts match the passed-and-classified filters. -/
theorem C4_amended_witness :
    goodResp.results.length = 6 ∧
    goodResp.valueSliceCount = ((goodResp.results.filter countedAsValue).length : Int) ∧
    goodResp.pointerSliceCount = ((goodResp.results.filter countedAsPointer).length : Int) :=
  C4_amended_counts_cover_passed_results_only goodEnv { deadlineExceeded := false }
    { testScenarios := [], deepValidation := false } goodResp rfl

/-- Claim C5 counterexample: a payload with 1 value-collection element, 1
reference-collection element and 1 metrics element reports
items_processed = 2, not 3: the metrics collection field is not included in
the count (line 127 sums only ValueSliceData and PointerSliceData). -/
theorem C5_counterexample_metrics_not_counted :
    StreamValidation goodEnv (fun _ => 1000000000) (fun _ => false)
        [RecvOutcome.msg c5Req, RecvOutcome.eofEnd] =
      HandlerOutcome.normal [mkStreamResponse goodEnv 1000000000 c5Req c5Payload] ∧
    (mkStreamResponse goodEnv 1000000000 c5Req c5Payload).stats.itemsProcessed = 2 ∧
    (c5Payload.valueSliceData.length + c5Payload.pointerSliceData.length +
      c5Payload.metrics.length : Int) = 3 :=
  ⟨rfl, by decide, by decide⟩

/-- Claim C5 amended: for a failure-free connection with non-nil payloads,
each response's items_processed equals the element count of the
value-collection field plus that of the reference-collection field only; the
metrics field is not counted. In particular 1 value element + 1 reference
element gives items_processed = 2. -/
theorem C5_amended_items_processed_value_plus_pointer (env : ReflectEnv)
    (timeNs : Nat → Int) (sendFails : Nat → Bool) (reqs : List StreamRequest)
    (hnn : ∀ r ∈ reqs, r.testData ≠ none) (hsend : ∀ n, sendFails n = false) :
    StreamValidation env timeNs sendFails (reqs.map RecvOutcome.msg ++ [RecvOutcome.eofEnd]) =
      HandlerOutcome.normal (expectedResponses env timeNs 0 reqs) ∧
    (expectedResponses env timeNs 0 reqs).map (fun resp => resp.stats.itemsProcessed) =
      reqs.map (fun r => (r.testData.map (fun td =>
        (td.valueSliceData.length : Int) + td.pointerSliceData.length)).getD 0) := by
  constructor
  · have := streamLoop_all_ok env timeNs sendFails hsend reqs hnn 0 []
    simpa [StreamValidation] using this
  · exact expectedResponses_items env timeNs reqs hnn 0

/-- Witness for the amended C5 theorem: the spec's example payload — one value
element and one reference element — under the good build. -/
theorem C5_amended_witness :
    StreamValidation goodEnv (fun _ => 1000000000) (fun _ => false)
        ([c3Req].map RecvOutcome.msg ++ [RecvOutcome.eofEnd]) =
      HandlerOutcome.normal (expectedResponses goodEnv (fun _ => 1000000000) 0 [c3Req]) ∧
    (expectedResponses goodEnv (fun _ => 1000000000) 0 [c3Req]).map
        (fun resp => resp.stats.itemsProcessed) =
      [c3Req].map (fun r => (r.testData.map (fun td =>
        (td.valueSliceData.length : Int) + td.pointerSliceData.length)).getD 0) :=
  C5_amended_items_processed_value_plus_pointer goodEnv (fun _ => 1000000000)
    (fun _ => false) [c3Req] (by decide) (fun _ => rfl)

/-- Claim C6: `RunBenchmarks` rejects `iterations <= 0` or `data_size <= 0`
with an invalid-argument error carrying no results — the argument checks come
before any synthetic data is built — and with positive parameters it does not
raise invalid-argument and returns exactly the four named benchmark results. -/
theorem C6_run_benchmarks_argument_validation (o : BenchOracle) (ctx : GoContext)
    (req : BenchmarkRequest) :
    (req.iterations ≤ 0 ∨ req.dataSize ≤ 0 →
      exceptErrorCode (RunBenchmarks o ctx req) = some GrpcCode.invalidArgument) ∧
    (0 < req.iterations → 0 < req.dataSize →
      exceptResultNames (RunBenchmarks o ctx req) =
        some ["ValueSlice_Iteration", "PointerSlice_Iteration",
              "Memory_Allocation", "Serialization"]) := by
  constructor
  · intro h
    by_cases hi : req.iterations ≤ 0
    · simp [RunBenchmarks, hi, exceptErrorCode]
    · have hd : req.dataSize ≤ 0 := by tauto
      simp [RunBenchmarks, hi, hd, exceptErrorCode]
  · intro hi hd
    have hi' : ¬ req.iterations ≤ 0 := by omega
    have hd' : ¬ req.dataSize ≤ 0 := by omega
    simp [RunBenchmarks, hi', hd', exceptResultNames,
      benchmarkValueSliceIteration, benchmarkPointerSliceIteration,
      benchmarkMemoryAllocation, benchmarkSerialization]

/-- Witness for C6 at the spec's example inputs: iterations = -1 rejects with
InvalidArgument and zero results; positive parameters yield the four names. -/
theorem C6_witness :
    exceptErrorCode (RunBenchmarks oracle1 { deadlineExceeded := false }
        { iterations := -1, dataSize := 100 }) = some GrpcCode.invalidArgument ∧
    exceptResultNames (RunBenchmarks oracle1 { deadlineExceeded := false }
        { iterations := 3, dataSize := 2 }) =
      some ["ValueSlice_Iteration", "PointerSlice_Iteration",
            "Memory_Allocation", "Serialization"] :=
  ⟨(C6_run_benchmarks_argument_validation oracle1 { deadlineExceeded := false }
      { iterations := -1, dataSize := 100 }).1 (Or.inl (by norm_num)),
   (C6_run_benchmarks_argument_validation oracle1 { deadlineExceeded := false }
      { iterations := 3, dataSize := 2 }).2 (by norm_num) (by norm_num)⟩

/-- Claim C7: the summarizer looks the two iteration durations up by name,
computes improvement_ratio = reference/value only when both are positive, and
defaults the ratio to 1 whenever either is zero (or negative), so the only
division performed has a positive divisor — it never divides by zero, and in
this rational model NaN/Inf are unrepresentable; results with unknown or
extra names leave the summary unchanged. -/
theorem C7_summary_ratio_safe (results : List BenchmarkResult) :
    ((calculateBenchmarkSummary results).valueSliceAvgDuration = 0 ∨
        (calculateBenchmarkSummary results).pointerSliceAvgDuration = 0 →
      (calculateBenchmarkSummary results).performanceImprovementRatio = 1) ∧
    (0 < (calculateBenchmarkSummary results).valueSliceAvgDuration →
      0 < (calculateBenchmarkSummary results).pointerSliceAvgDuration →
      (calculateBenchmarkSummary results).performanceImprovementRatio =
        (calculateBenchmarkSummary results).pointerSliceAvgDuration /
          (calculateBenchmarkSummary results).valueSliceAvgDuration) ∧
    (∀ extra : BenchmarkResult,
      extra.name ∉ ["ValueSlice_Iteration", "PointerSlice_Iteration",
        "Memory_Allocation", "Serialization"] →
      calculateBenchmarkSummary (results ++ [extra]) = calculateBenchmarkSummary results) := by
  have hval : (calculateBenchmarkSummary results).valueSliceAvgDuration =
      (results.foldl summaryStep (0, 0, 0)).1 := rfl
  have hptr : (calculateBenchmarkSummary results).pointerSliceAvgDuration =
      (results.foldl summaryStep (0, 0, 0)).2.1 := rfl
  have hratio : (calculateBenchmarkSummary results).performanceImprovementRatio =
      if 0 < (results.foldl summaryStep (0, 0, 0)).2.1 ∧
          0 < (results.foldl summaryStep (0, 0, 0)).1
      then (results.foldl summaryStep (0, 0, 0)).2.1 /
        (results.foldl summaryStep (0, 0, 0)).1
      else 1 := rfl
  refine ⟨?_, ?_, ?_⟩
  · intro h
    rw [hval, hptr] at h
    rw [hratio, if_neg]
    rcases h with h | h
    · rintro ⟨_, hv⟩; rw [h] at hv; exact lt_irrefl 0 hv
    · rintro ⟨hp2, _⟩; rw [h] at hp2; exact lt_irrefl 0 hp2
  · intro hv hp2
    rw [hval] at hv
    rw [hptr] at hp2
    rw [hratio, hval, hptr, if_pos ⟨hp2, hv⟩]
  · intro extra hmem
    have h1 : extra.name ≠ "ValueSlice_Iteration" := fun hcon => hmem (by simp [hcon])
    have h2 : extra.name ≠ "PointerSlice_Iteration" := fun hcon => hmem (by simp [hcon])
    have h3 : extra.name ≠ "Memory_Allocation" := fun hcon => hmem (by simp [hcon])
    have h4 : extra.name ≠ "Serialization" := fun hcon => hmem (by simp [hcon])
    have hstep : summaryStep (results.foldl summaryStep (0, 0, 0)) extra =
        results.foldl summaryStep (0, 0, 0) := by
      simp [summaryStep, h1, h2, h3, h4]
    simp only [calculateBenchmarkSummary, List.foldl_append, List.foldl_cons,
      List.foldl_nil, hstep]

/-- Witness for C7: a zero value-duration defaults the ratio to 1; positive
durations divide; an unknown-name result leaves the summary unchanged. -/
theorem C7_witness :
    (calculateBenchmarkSummary wlistZero).performanceImprovementRatio = 1 ∧
    (calculateBenchmarkSummary wlistPos).performanceImprovementRatio =
      (calculateBenchmarkSummary wlistPos).pointerSliceAvgDuration /
        (calculateBenchmarkSummary wlistPos).valueSliceAvgDuration ∧
    calculateBenchmarkSummary (wlistPos ++ [unknownResult]) =
      calculateBenchmarkSummary wlistPos :=
  ⟨(C7_summary_ratio_safe wlistZero).1 (Or.inl (by decide)),
   (C7_summary_ratio_safe wlistPos).2.1 (by decide) (by decide),
   (C7_summary_ratio_safe wlistPos).2.2 unknownResult (by decide)⟩

/-- Claim C8 counterexample: a single inbound request whose payload is nil
yields zero responses — the handler panics in the stats computation — so it is
not true that every inbound request yields exactly one outbound response. -/
theorem C8_counterexample_nil_payload_no_response :
    StreamValidation goodEnv (fun _ => 2) (fun _ => false)
      [RecvOutcome.msg { requestId := "x", sequenceNumber := 0, testData := none },
       RecvOutcome.eofEnd] = HandlerOutcome.panicked [] := rfl

/-- Claim C8 amended: provided every inbound payload is non-nil (a nil payload
panics, see the C1 bug) and sends succeed, each of the inbound requests yields
exactly one outbound response, emitted synchronously in arrival order, and the
k-th response echoes the k-th request's request_id and sequence_number; n
requests followed by end of stream yield exactly n responses. -/
theorem C8_amended_one_ordered_echoing_response_per_request (env : ReflectEnv)
    (timeNs : Nat → Int) (sendFails : Nat → Bool) (reqs : List StreamRequest)
    (hnn : ∀ r ∈ reqs, r.testData ≠ none) (hsend : ∀ n, sendFails n = false) :
    StreamValidation env timeNs sendFails (reqs.map RecvOutcome.msg ++ [RecvOutcome.eofEnd]) =
      HandlerOutcome.normal (expectedResponses env timeNs 0 reqs) ∧
    (expectedResponses env timeNs 0 reqs).length = reqs.length ∧
    (expectedResponses env timeNs 0 reqs).map
        (fun resp => (resp.requestId, resp.sequenceNumber)) =
      reqs.map (fun r => (r.requestId, r.sequenceNumber)) := by
  refine ⟨?_, expectedResponses_length env timeNs reqs 0,
    expectedResponses_corr env timeNs reqs hnn 0⟩
  have := streamLoop_all_ok env timeNs sendFails hsend reqs hnn 0 []
  simpa [StreamValidation] using this

/-- Witness for the amended C8 theorem: the spec's five-request scenario under
the good build. -/
theorem C8_amended_witness :
    StreamValidation goodEnv (fun _ => 1) (fun _ => false)
        (fiveReqs.map RecvOutcome.msg ++ [RecvOutcome.eofEnd]) =
      HandlerOutcome.normal (expectedResponses goodEnv (fun _ => 1) 0 fiveReqs) ∧
    (expectedResponses goodEnv (fun _ => 1) 0 fiveReqs).length = fiveReqs.length ∧
    (expectedResponses goodEnv (fun _ => 1) 0 fiveReqs).map
        (fun resp => (resp.requestId, resp.sequenceNumber)) =
      fiveReqs.map (fun r => (r.requestId, r.sequenceNumber)) :=
  C8_amended_one_ordered_echoing_response_per_request goodEnv (fun _ => 1) (fun _ => false)
    fiveReqs (by decide) (fun _ => rfl)

/-- Claim C9: `ValidateTypes` reads neither its request nor its context: under
a fixed build, any two invocations — any scenario lists, any deep_validation
flags, exceeded deadline or not — produce identical responses (two-run
noninterference), always over the same six contract-entry results. -/
theorem C9_validate_types_noninterference (env : ReflectEnv) (c1 c2 : GoContext)
    (req1 req2 : ValidateTypesRequest) :
    ValidateTypes env c1 req1 = ValidateTypes env c2 req2 ∧
    (∀ resp, ValidateTypes env c1 req1 = some resp → resp.results.length = 6) :=
  ⟨rfl, fun resp h => validateTypes_results_length env c1 req1 resp h⟩

/-- Witness for C9: two concrete calls with different contexts and requests
agree, and the good build's response has six results. -/
theorem C9_witness :
    ValidateTypes goodEnv { deadlineExceeded := false }
        { testScenarios := ["smoke"], deepValidation := true } =
      ValidateTypes goodEnv { deadlineExceeded := true }
        { testScenarios := [], deepValidation := false } ∧
    goodResp.results.length = 6 :=
  ⟨(C9_validate_types_noninterference goodEnv { deadlineExceeded := false }
      { deadlineExceeded := true } { testScenarios := ["smoke"], deepValidation := true }
      { testScenarios := [], deepValidation := false }).1,
   (C9_validate_types_noninterference goodEnv { deadlineExceeded := false }
      { deadlineExceeded := false } { testScenarios := [], deepValidation := false }
      { testScenarios := [], deepValidation := false }).2 goodResp rfl⟩

/-- Claim C10 counterexample: `containsValueSlice("ab")` does not panic: Go's
short-circuit evaluation returns false, because `"ab"[:2] == "[]"` is false
and `"ab"[2]` is never evaluated — so the helpers do not panic on every
string shorter than 3 characters. -/
theorem C10_counterexample_two_char_string_no_panic :
    containsValueSlice "ab" = some false := by decide

/-- Claim C10 amended: `containsPointerSlice` panics exactly on strings
shorter than 3; `containsValueSlice` panics exactly on strings shorter than 2
or on the string "[]" itself (any other 2-character string short-circuits to
false, and then `containsPointerSlice` panics in the else-if); consequently
the counting loop of `ValidateTypes` is panic-free precisely when every
passed result's ActualType has length at least 3 — failed results are skipped
by the `result.Passed &&` short-circuit and never inspected. -/
theorem C10_amended_panic_characterization (t : String) (rs : List ValidationResult) :
    (containsPointerSlice t = none ↔ t.data.length < 3) ∧
    (containsValueSlice t = none ↔ (t.data.length < 2 ∨ t = "[]")) ∧
    ((countSlices rs).isSome = true ↔
      ∀ r ∈ rs, r.passed = true → 3 ≤ r.actualType.data.length) :=
  ⟨containsPointerSlice_eq_none_iff t, containsValueSlice_eq_none_iff t,
   foldlM_countStep_isSome rs (0, 0)⟩

/-- Witness for the amended C10 theorem at concrete inputs: a 2-character
string panics the pointer helper, "[]" panics the value helper, and a passed
result with a 3-character-or-longer ActualType keeps the loop panic-free. -/
theorem C10_amended_witness :
    containsPointerSlice "ab" = none ∧
    containsValueSlice "[]" = none ∧
    (countSlices [passedLongResult]).isSome = true :=
  ⟨(C10_amended_panic_characterization "ab" []).1.mpr (by decide),
   (C10_amended_panic_characterization "[]" []).2.1.mpr (Or.inr rfl),
   (C10_amended_panic_characterization "x" [passedLongResult]).2.2.mpr (by decide)⟩
